import Mathlib

/-!
Verification of the MQTT Wake-on-LAN bridge (`src/main.py`).

The development shallowly embeds the message-processing core of the service:
the payload classifier `_on_message`, the MAC-address check `_is_mac_address`
(embedded as a small regex matcher applied to the exact source pattern),
the device-directory lookup, and the dispatch wrapper `_wake_device`.

Modelling conventions:
* Python values that flow through the message path (results of `json.loads`,
  YAML-loaded directory entries, fields of the `device_config` dict) are
  modelled by the inductive type `Json`.  JSON numbers are modelled as
  integers; no verified property depends on numeric values.
* Python exceptions are modelled with `Except PyExc`; every operation that
  can raise in the source (`[]` indexing, `.get` on a non-dict, `.lower()`
  on a non-string, iteration of a non-iterable, string slicing) returns
  `Except`.  The catch-all `except` of `_on_message` is the total wrapper
  `onMessage`.
* `json.loads` and UTF-8 decoding are external library code; their outcome
  (decode failure, parse failure, or a parsed value) is an input of the
  model (`MsgInput`).  `send_magic_packet` is external library code; the
  model records the attempted transmission as a `SendEvent` (transport-level
  failures of the network stack are external nondeterminism and are not
  modelled, which is why `Diag.wakeFailed` is unreachable in the model).
* Python dicts have unique keys; field lists are read with first-occurrence
  lookup throughout.
* `str.lower` and `str.strip` are modelled character-wise with
  `Char.toLower` and `Char.isWhitespace`; these agree with Python on ASCII
  input, and every verified property only constrains ASCII data.
-/

namespace WakeMQTT

/-- Python values reaching the message-processing core (JSON values and
YAML-loaded configuration entries). -/
inductive Json where
  | null : Json
  | bool : Bool → Json
  | num : Int → Json
  | str : String → Json
  | arr : List Json → Json
  | obj : List (String × Json) → Json

/-- Python exceptions that the embedded operations can raise. -/
inductive PyExc where
  | typeError : PyExc
  | keyError : String → PyExc
  | attributeError : PyExc
  | nameError : PyExc
  | unicodeDecodeError : PyExc
deriving DecidableEq

/-- Python repr of a value, as used when a container is rendered inside an
f-string (`f"device-..."`).  Strings are rendered with single quotes; the
exact quoting never matters to any verified property. -/
def pyRepr : Json → String
  | .null => "None"
  | .bool true => "True"
  | .bool false => "False"
  | .num n => toString n
  | .str s => String.mk [Char.ofNat 39] ++ s ++ String.mk [Char.ofNat 39]
  | .arr xs => "[" ++ String.intercalate ", " (xs.attach.map (fun x => pyRepr x.1)) ++ "]"
  | .obj fs => "\x7b" ++
      String.intercalate ", "
        (fs.attach.map (fun p =>
          String.mk [Char.ofNat 39] ++ p.1.1 ++ String.mk [Char.ofNat 39] ++ ": " ++ pyRepr p.1.2))
      ++ "\x7d"
decreasing_by
  · have := List.sizeOf_lt_of_mem x.2
    simp only [Json.arr.sizeOf_spec]
    omega
  · have h1 := List.sizeOf_lt_of_mem p.2
    have h2 : sizeOf p.1.2 < sizeOf p.1 := by
      obtain ⟨a, b⟩ := p.1
      simp only [Prod.mk.sizeOf_spec]
      omega
    simp only [Json.obj.sizeOf_spec]
    omega

/-- Python `str(x)`, as used by an f-string interpolation. -/
def pyStr : Json → String
  | .str s => s
  | j => pyRepr j

/-- Whether one character list occurs as a contiguous run at the front of
another (helper for the Python substring test). -/
def listPrefixEq : List Char → List Char → Bool
  | [], _ => true
  | _ :: _, [] => false
  | a :: as, b :: bs => a == b && listPrefixEq as bs

/-- Python substring containment `needle in haystack` on strings. -/
def strIn (needle : List Char) : List Char → Bool
  | [] => listPrefixEq needle []
  | c :: t => listPrefixEq needle (c :: t) || strIn needle t

/-- Python `key in value` (membership test), raising `TypeError` on
non-container values, exactly as `'mac_address' in message_data` behaves
(`src/main.py:112`). -/
def pyContains (j : Json) (k : String) : Except PyExc Bool :=
  match j with
  | .obj fs => .ok (fs.lookup k).isSome
  | .str s => .ok (strIn k.data s.data)
  | .arr xs => .ok (xs.any (fun x => match x with | .str s => s == k | _ => false))
  | _ => .error .typeError

/-- Python subscription `value[key]` with a string key: `KeyError` on a dict
without the key, `TypeError` on every non-dict (`src/main.py:113,154-155`). -/
def pyGetItem (j : Json) (k : String) : Except PyExc Json :=
  match j with
  | .obj fs =>
      match fs.lookup k with
      | some v => .ok v
      | none => .error (.keyError k)
  | _ => .error .typeError

/-- Python `value.get(key, default)`: the dict method; `AttributeError` on a
non-dict (`src/main.py:114-115,127,156`). -/
def pyDictGet (j : Json) (k : String) (dflt : Json) : Except PyExc Json :=
  match j with
  | .obj fs => .ok ((fs.lookup k).getD dflt)
  | _ => .error .attributeError

/-- Python `str.strip()`: remove leading and trailing whitespace
(`payload.strip()`, `src/main.py:105`). -/
def pyStrip (s : String) : String :=
  String.mk (((s.data.dropWhile Char.isWhitespace).reverse.dropWhile Char.isWhitespace).reverse)

/-- Python `str.lower()` (`src/main.py:127,136`). -/
def pyLower (s : String) : String := String.mk (s.data.map Char.toLower)

/-- Python `value.lower()`: string method; `AttributeError` on a non-string
(`src/main.py:127,136`). -/
def pyLowerStr (j : Json) : Except PyExc String :=
  match j with
  | .str s => .ok (pyLower s)
  | _ => .error .attributeError

/-- Python iteration `for x in value`: lists yield elements, strings yield
one-character strings, dicts yield their keys; other values raise
`TypeError` (`src/main.py:135,174`). -/
def pyIter (j : Json) : Except PyExc (List Json) :=
  match j with
  | .arr xs => .ok xs
  | .str s => .ok (s.data.map (fun c => .str (String.mk [c])))
  | .obj fs => .ok (fs.map (fun p => .str p.1))
  | _ => .error .typeError

/-- Python truthiness of a value, as used by `if ip_address:`,
`if not device_name:`, `if not device_config:` and `if devices:`. -/
def pyTruthy : Json → Bool
  | .null => false
  | .bool b => b
  | .num n => n != 0
  | .str s => s != ""
  | .arr xs => !xs.isEmpty
  | .obj fs => !fs.isEmpty

/-- Last five characters of a string, Python `s[-5:]` (the whole string when
shorter than five characters). -/
def lastFive (s : String) : String :=
  String.mk (s.data.drop (s.data.length - 5))

/-- Python slice `value[-5:]` as applied to `mac_address`
(`src/main.py:115`): strings and lists slice, other values raise
`TypeError`. -/
def pySliceLast5 (j : Json) : Except PyExc Json :=
  match j with
  | .str s => .ok (.str (lastFive s))
  | .arr xs => .ok (.arr (xs.drop (xs.length - 5)))
  | _ => .error .typeError

/-! ## The MAC-address check

`_is_mac_address` (`src/main.py:179-184`) is
`bool(re.match(r'^([0-9A-Fa-f]\x7b2\x7d[:-])\x7b5\x7d([0-9A-Fa-f]\x7b2\x7d)$', text))`.
The pattern is embedded as a regex AST and run by a small matcher;
`re.match` anchors at the start, and Python's `$` (without `re.MULTILINE`)
accepts the end of the string or a position just before one trailing
newline. -/

/-- Regex abstract syntax: empty word, single character from a class,
concatenation. -/
inductive Regex where
  | eps : Regex
  | cls : (Char → Bool) → Regex
  | seq : Regex → Regex → Regex

/-- All suffixes remaining after some way of matching the regex against a
prefix of the input (a match object exists iff this list has an element
satisfying the end anchor). -/
def Regex.matchesFrom : Regex → List Char → List (List Char)
  | .eps, cs => [cs]
  | .cls _, [] => []
  | .cls p, c :: cs => if p c then [cs] else []
  | .seq a b, cs => (a.matchesFrom cs).flatMap b.matchesFrom

/-- Counted repetition `r` applied `n` times, the regex `r...r`. -/
def Regex.repeatN (r : Regex) : Nat → Regex
  | 0 => .eps
  | n + 1 => .seq r (Regex.repeatN r n)

/-- The character class `[0-9A-Fa-f]` of the source pattern. -/
def hexDigit (c : Char) : Bool :=
  (decide ('0' ≤ c) && decide (c ≤ '9')) ||
  (decide ('A' ≤ c) && decide (c ≤ 'F')) ||
  (decide ('a' ≤ c) && decide (c ≤ 'f'))

/-- The character class `[:-]` of the source pattern. -/
def sepChar (c : Char) : Bool := c == ':' || c == '-'

/-- The group `[0-9A-Fa-f]\x7b2\x7d[:-]` of the source pattern. -/
def macGroupRegex : Regex := .seq (.cls hexDigit) (.seq (.cls hexDigit) (.cls sepChar))

/-- The final group `[0-9A-Fa-f]\x7b2\x7d` of the source pattern. -/
def macTailRegex : Regex := .seq (.cls hexDigit) (.cls hexDigit)

/-- The exact source pattern
`([0-9A-Fa-f]\x7b2\x7d[:-])\x7b5\x7d([0-9A-Fa-f]\x7b2\x7d)`:
five repetitions of hex-hex-separator followed by hex-hex. -/
def macRegex : Regex := .seq (Regex.repeatN macGroupRegex 5) macTailRegex

/-- The newline character, which Python's `$` anchor tolerates at the end of
the input. -/
def nlChar : Char := Char.ofNat 10

/-- `bool(re.match(pat + "$", s))` with Python end-of-string semantics for
`$`: the remainder after the match is empty or a single newline. -/
def pyMatchToEnd (r : Regex) (s : String) : Bool :=
  (r.matchesFrom s.data).any (fun rest => rest == [] || rest == [nlChar])

/-- `_is_mac_address` (`src/main.py:179-184`). -/
def isMacAddress (s : String) : Bool := pyMatchToEnd macRegex s

/-- Specification-side shape: `n + 1` groups of two hexadecimal digits, the
`n` separators each independently `:` or `-`, and nothing after the last
group. -/
def macGroups : Nat → List Char → Bool
  | 0, [a, b] => hexDigit a && hexDigit b
  | 0, _ => false
  | n + 1, a :: b :: s :: rest => hexDigit a && hexDigit b && sepChar s && macGroups n rest
  | _ + 1, _ => false

/-- Specification-side shape with one fixed separator character used at all
five positions. -/
def macGroupsSep (sep : Char) : Nat → List Char → Bool
  | 0, [a, b] => hexDigit a && hexDigit b
  | 0, _ => false
  | n + 1, a :: b :: s :: rest => hexDigit a && hexDigit b && (s == sep) && macGroupsSep sep n rest
  | _ + 1, _ => false

/-- The spec's wording of the MAC pattern: six groups of two hex digits
separated uniformly by `:` or uniformly by `-`. -/
def macUniform (s : String) : Bool :=
  macGroupsSep ':' 5 s.data || macGroupsSep '-' 5 s.data

/-- The claim-side check of C2: the trimmed string, uniform separators. -/
def claimMacCheck (s : String) : Bool := macUniform (pyStrip s)

/-! ## Service state and the message-processing pipeline -/

/-- The slice of the loaded configuration that `_on_message` reads:
`config.get('devices', ...)` — `none` models a config without the
`devices` key. -/
structure Config where
  devices : Option Json

/-- `self.config.get('devices', [])` (`src/main.py:135,172`). -/
def devicesVal (cfg : Config) : Json := cfg.devices.getD (.arr [])

/-- An attempted `send_magic_packet` call: broadcast, or unicast with the
`ip_address` keyword (`src/main.py:161,164`). -/
inductive SendEvent where
  | broadcast : Json → SendEvent
  | unicast : Json → Json → SendEvent

/-- The MAC value an attempted transmission was built from. -/
def SendEvent.mac : SendEvent → Json
  | .broadcast m => m
  | .unicast m _ => m

/-- What `_list_available_devices` logs: the configured names, or
"No devices configured" (`src/main.py:170-177`). -/
inductive AvailMsg where
  | names : List String → AvailMsg
  | noneConfigured : AvailMsg
deriving DecidableEq

/-- The observable outcome of one `_on_message` invocation. -/
inductive Diag where
  | sent : Json → Diag
  | wakeFailed : Json → PyExc → Diag
  | noTarget : Diag
  | notFound : String → AvailMsg → Diag
  | caughtError : PyExc → Diag

/-- Body of `_wake_device`'s `try` block (`src/main.py:153-165`): extract
`mac_address`, `name` and optional `ip_address` from the device dict and
attempt exactly one transmission, unicast when `ip_address` is truthy. -/
def wakeInner (dc : Json) : Except PyExc (Diag × List SendEvent) := do
  let mac ← pyGetItem dc "mac_address"
  let _name ← pyGetItem dc "name"
  let ip ← pyDictGet dc "ip_address" .null
  let ev := if pyTruthy ip then SendEvent.unicast mac ip else SendEvent.broadcast mac
  pure (.sent dc, [ev])

/-- Whether `device_name` was bound before the `except` handler of
`_wake_device` runs: both `device_config['mac_address']` and
`device_config['name']` succeeded. -/
def nameBound (dc : Json) : Bool :=
  (pyGetItem dc "mac_address").toBool && (pyGetItem dc "name").toBool

/-- `_wake_device` (`src/main.py:151-168`): the internal `except` logs using
`device_name`, which raises `NameError` out of the handler when the
extraction failed before `device_name` was assigned. -/
def wakeDevice (dc : Json) : Except PyExc (Diag × List SendEvent) :=
  match wakeInner dc with
  | .ok r => .ok r
  | .error e => if nameBound dc then .ok (.wakeFailed dc e, []) else .error .nameError

/-- The name a directory entry contributes to the `Available devices` log
line, when it is a dict with a string `name`. -/
def entryName (e : Json) : Option String :=
  match e with
  | .obj fs =>
      match fs.lookup "name" with
      | some (.str s) => some s
      | _ => none
  | _ => none

/-- The lowered name of a directory entry, the key the lookup loop compares
against. -/
def entryNameLower (e : Json) : Option String := (entryName e).map pyLower

/-- `_list_available_devices` (`src/main.py:170-177`): truthiness of the raw
`devices` value selects between the joined name list and the
"No devices configured" message; the comprehension reads every `name` and
the join then requires every name to be a string. -/
def listAvailableDevices (cfg : Config) : Except PyExc AvailMsg := do
  let ds := devicesVal cfg
  if pyTruthy ds then do
    let xs ← pyIter ds
    let vals ← xs.mapM (fun d => pyGetItem d "name")
    let names ← vals.mapM (fun n =>
      match n with
      | .str s => pure s
      | _ => throw .typeError)
    pure (.names names)
  else
    pure .noneConfigured

/-- The lookup loop of `_on_message` (`src/main.py:134-138`): first entry
whose lowered `name` equals the key; malformed entries raise before later
entries are inspected. -/
def findDevice (key : String) : List Json → Except PyExc (Option Json)
  | [] => .ok none
  | d :: rest => do
      let n ← pyGetItem d "name"
      let nl ← pyLowerStr n
      if nl == key then pure (some d) else findDevice key rest

/-- Lines 133-146 of `_on_message`: scan the configured directory for the
lowered candidate name; wake the first match, otherwise log the not-found
warning and the available devices. -/
def deviceLookup (cfg : Config) (key : String) : Except PyExc (Diag × List SendEvent) := do
  let ds ← pyIter (devicesVal cfg)
  let found ← findDevice key ds
  match found with
  | some d => wakeDevice d
  | none => do
      let avail ← listAvailableDevices cfg
      pure (.notFound key avail, [])

/-- Lines 112-147 of `_on_message`: dispatch on the parsed `message_data`
value.  The direct-MAC branch builds the `device_config` dict verbatim from
the payload (the default display name `f"device-\x7bmac_address[-5:]\x7d"` is
evaluated eagerly, before `.get` consults the `device` key); the name branch
lowers the `device` value and scans the directory. -/
def handleParsed (cfg : Config) (md : Json) : Except PyExc (Diag × List SendEvent) := do
  let hasMac ← pyContains md "mac_address"
  if hasMac then do
    let mac ← pyGetItem md "mac_address"
    let ip ← pyDictGet md "ip_address" .null
    let sliced ← pySliceLast5 mac
    let name ← pyDictGet md "device" (.str ("device-" ++ pyStr sliced))
    let dc := Json.obj [("name", name), ("mac_address", mac), ("ip_address", ip)]
    wakeDevice dc
  else do
    let dn ← pyDictGet md "device" (.str "")
    let key ← pyLowerStr dn
    if key == "" then
      pure (.noTarget, [])
    else
      deviceLookup cfg key

/-- One inbound MQTT message, as seen after the external decode and parse
steps: undecodable bytes, or the decoded text together with the result of
`json.loads` on it (`none` models `json.JSONDecodeError`). -/
inductive MsgInput where
  | undecodable : MsgInput
  | text : String → Option Json → MsgInput

/-- Lines 101-109 of `_on_message`: the parsed value, with the plain-text
fallback building `\x7b"mac_address": ...\x7d` or `\x7b"device": ...\x7d`
from the trimmed payload according to the MAC check. -/
def interpret (payload : String) (parsed : Option Json) : Json :=
  match parsed with
  | some j => j
  | none =>
      let c := pyStrip payload
      if isMacAddress c then .obj [("mac_address", .str c)] else .obj [("device", .str c)]

/-- `_on_message` without its outer catch-all `except`
(`src/main.py:95-147`). -/
def onMessageRaw (cfg : Config) : MsgInput → Except PyExc (Diag × List SendEvent)
  | .undecodable => .error .unicodeDecodeError
  | .text payload parsed => handleParsed cfg (interpret payload parsed)

/-- `_on_message` (`src/main.py:93-149`): the outer `except Exception`
converts any escaped exception into a logged error, after which the
callback returns normally. -/
def onMessage (cfg : Config) (m : MsgInput) : Diag × List SendEvent :=
  match onMessageRaw cfg m with
  | .ok r => r
  | .error e => (.caughtError e, [])

/-- Sequential delivery of a stream of messages to the callback. -/
def processAll (cfg : Config) : List MsgInput → List (Diag × List SendEvent)
  | [] => []
  | m :: ms => onMessage cfg m :: processAll cfg ms

end WakeMQTT

namespace WakeMQTT

/-! ## Evaluation lemmas for the pipeline -/

theorem processAll_eq_map (cfg : Config) (ms : List MsgInput) :
    processAll cfg ms = ms.map (onMessage cfg) := by
  induction ms with
  | nil => rfl
  | cons m ms ih => simp [processAll, ih]

theorem lookup_dc_mac (n m i : Json) :
    List.lookup "mac_address" [("name", n), ("mac_address", m), ("ip_address", i)] = some m := rfl

theorem lookup_dc_name (n m i : Json) :
    List.lookup "name" [("name", n), ("mac_address", m), ("ip_address", i)] = some n := rfl

theorem lookup_dc_ip (n m i : Json) :
    List.lookup "ip_address" [("name", n), ("mac_address", m), ("ip_address", i)] = some i := rfl

/-- Dispatching a fully populated `device_config` dict: exactly one
transmission is attempted, unicast precisely when the `ip_address` value is
truthy. -/
theorem wakeDevice_dc (n m i : Json) :
    wakeDevice (.obj [("name", n), ("mac_address", m), ("ip_address", i)]) =
      .ok (.sent (.obj [("name", n), ("mac_address", m), ("ip_address", i)]),
           [if pyTruthy i then SendEvent.unicast m i else SendEvent.broadcast m]) := by
  simp [wakeDevice, wakeInner, pyGetItem, pyDictGet, lookup_dc_mac, lookup_dc_name, lookup_dc_ip,
    Bind.bind, Except.bind, Pure.pure, Except.pure]

/-- The `device_config` dict built by the direct-MAC branch
(`src/main.py:117-121`) for a string-valued `mac_address` field. -/
def directDC (fields : List (String × Json)) (mac : String) : Json :=
  .obj [("name", (fields.lookup "device").getD (.str ("device-" ++ lastFive mac))),
        ("mac_address", .str mac),
        ("ip_address", (fields.lookup "ip_address").getD .null)]

/-- A structured payload with a string `mac_address` field always reaches
`_wake_device` with the payload data verbatim, whatever the configuration. -/
theorem handleParsed_mac (cfg : Config) (fields : List (String × Json)) (mac : String)
    (hmac : fields.lookup "mac_address" = some (.str mac)) :
    handleParsed cfg (.obj fields) =
      .ok (.sent (directDC fields mac),
           [if pyTruthy ((fields.lookup "ip_address").getD .null)
            then SendEvent.unicast (.str mac) ((fields.lookup "ip_address").getD .null)
            else SendEvent.broadcast (.str mac)]) := by
  simp [handleParsed, pyContains, pyGetItem, pyDictGet, pySliceLast5, pyStr, hmac, directDC,
    wakeDevice_dc, Bind.bind, Except.bind, Pure.pure, Except.pure]

end WakeMQTT

namespace WakeMQTT

/-- Shape of a directory entry with a string name. -/
theorem entryName_some {e : Json} {nm : String} (h : entryName e = some nm) :
    ∃ fs, e = .obj fs ∧ fs.lookup "name" = some (.str nm) := by
  cases e with
  | obj fs =>
      refine ⟨fs, rfl, ?_⟩
      simp only [entryName] at h
      cases hl : fs.lookup "name" with
      | none => rw [hl] at h; simp at h
      | some v =>
          rw [hl] at h
          cases v <;> simp_all
  | null => simp [entryName] at h
  | bool b => simp [entryName] at h
  | num n => simp [entryName] at h
  | str s => simp [entryName] at h
  | arr xs => simp [entryName] at h

/-- On a directory whose entries all carry a string `name`, the lookup loop
returns the first entry whose lowered name equals the key. -/
theorem findDevice_eq_find (key : String) (entries : List Json)
    (hwf : ∀ e ∈ entries, (entryName e).isSome = true) :
    findDevice key entries =
      .ok (entries.find? (fun e => entryNameLower e == some key)) := by
  induction entries with
  | nil => rfl
  | cons d rest ih =>
      obtain ⟨nm, hnm⟩ := Option.isSome_iff_exists.mp (hwf d (List.mem_cons_self d rest))
      obtain ⟨fs, rfl, hl⟩ := entryName_some hnm
      have hlow : entryNameLower (.obj fs) = some (pyLower nm) := by
        simp [entryNameLower, hnm]
      simp only [findDevice, pyGetItem, hl, pyLowerStr, Bind.bind, Except.bind, List.find?]
      rw [hlow]
      by_cases hk : pyLower nm = key
      · simp [hk, Pure.pure, Except.pure]
      · have h1 : (pyLower nm == key) = false := by simp [hk]
        have h3 : (some (pyLower nm) == some key) = false := by simp [hk]
        rw [h1, h3]
        simp only [Bool.false_eq_true, if_false]
        exact ih (fun e he => hwf e (List.mem_cons_of_mem _ he))

end WakeMQTT

namespace WakeMQTT

theorem handleParsed_device (cfg : Config) (fields : List (String × Json)) (dn : String)
    (h1 : fields.lookup "mac_address" = none)
    (h2 : fields.lookup "device" = some (.str dn)) :
    handleParsed cfg (.obj fields) =
      if pyLower dn = "" then .ok (.noTarget, []) else deviceLookup cfg (pyLower dn) := by
  simp [handleParsed, pyContains, pyDictGet, pyLowerStr, h1, h2,
    Bind.bind, Except.bind, Pure.pure, Except.pure]

theorem handleParsed_noTarget (cfg : Config) (fields : List (String × Json))
    (h1 : fields.lookup "mac_address" = none)
    (h2 : fields.lookup "device" = none) :
    handleParsed cfg (.obj fields) = .ok (.noTarget, []) := by
  simp [handleParsed, pyContains, pyDictGet, pyLowerStr, h1, h2, pyLower,
    Bind.bind, Except.bind, Pure.pure, Except.pure]

theorem deviceLookup_entries (entries : List Json) (key : String)
    (hwf : ∀ e ∈ entries, (entryName e).isSome = true) :
    deviceLookup ⟨some (.arr entries)⟩ key =
      match entries.find? (fun e => entryNameLower e == some key) with
      | some d => wakeDevice d
      | none =>
          Except.bind (listAvailableDevices ⟨some (.arr entries)⟩)
            (fun avail => .ok (.notFound key avail, [])) := by
  simp only [deviceLookup, devicesVal, Option.getD, pyIter,
    findDevice_eq_find key entries hwf, Bind.bind, Except.bind, Pure.pure, Except.pure]

theorem deviceLookup_noDevices (cfg : Config) (key : String)
    (h : devicesVal cfg = .arr []) :
    deviceLookup cfg key = .ok (.notFound key .noneConfigured, []) := by
  simp [deviceLookup, h, pyIter, findDevice, listAvailableDevices, pyTruthy,
    Bind.bind, Except.bind, Pure.pure, Except.pure]

end WakeMQTT

namespace WakeMQTT

theorem tail_match_any (cs : List Char) :
    (macTailRegex.matchesFrom cs).any (fun rest => rest == [] || rest == [nlChar])
      = (macGroups 0 cs || (cs.getLast? == some nlChar && macGroups 0 cs.dropLast)) := by
  rcases cs with _ | ⟨a, _ | ⟨b, _ | ⟨c, rest⟩⟩⟩
  · simp [macTailRegex, Regex.matchesFrom, macGroups]
  · cases ha : hexDigit a <;>
      simp [macTailRegex, Regex.matchesFrom, macGroups, ha]
  · cases ha : hexDigit a <;> cases hb : hexDigit b <;>
      simp [macTailRegex, Regex.matchesFrom, macGroups, ha, hb]
  · rcases rest with _ | ⟨d, rest⟩
    · cases ha : hexDigit a <;> cases hb : hexDigit b <;>
        simp [macTailRegex, Regex.matchesFrom, macGroups, ha, hb, Bool.and_comm]
    · cases ha : hexDigit a <;> cases hb : hexDigit b <;>
        simp [macTailRegex, Regex.matchesFrom, macGroups, ha, hb]

theorem group_matchesFrom (a b s : Char) (rest : List Char) :
    macGroupRegex.matchesFrom (a :: b :: s :: rest)
      = if hexDigit a && hexDigit b && sepChar s then [rest] else [] := by
  cases ha : hexDigit a <;> cases hb : hexDigit b <;> cases hs : sepChar s <;>
    simp [macGroupRegex, Regex.matchesFrom, ha, hb, hs]

theorem macGroups_nil (n : Nat) : macGroups n [] = false := by cases n <;> rfl

theorem macGroups_succ_one (n : Nat) (a : Char) : macGroups (n + 1) [a] = false := rfl

theorem macGroups_succ_two (n : Nat) (a b : Char) : macGroups (n + 1) [a, b] = false := rfl

theorem macGroups_succ_cons (n : Nat) (a b s : Char) (rest : List Char) :
    macGroups (n + 1) (a :: b :: s :: rest)
      = (hexDigit a && hexDigit b && sepChar s && macGroups n rest) := by
  simp [macGroups, Bool.and_assoc]

theorem mac_match_any (n : Nat) (cs : List Char) :
    ((Regex.seq (Regex.repeatN macGroupRegex n) macTailRegex).matchesFrom cs).any
        (fun rest => rest == [] || rest == [nlChar])
      = (macGroups n cs || (cs.getLast? == some nlChar && macGroups n cs.dropLast)) := by
  induction n generalizing cs with
  | zero =>
      have h0 : (Regex.seq (Regex.repeatN macGroupRegex 0) macTailRegex).matchesFrom cs
          = macTailRegex.matchesFrom cs := by
        simp [Regex.repeatN, Regex.matchesFrom]
      rw [h0, tail_match_any]
  | succ n ih =>
      have hassoc : (Regex.seq (Regex.repeatN macGroupRegex (n + 1)) macTailRegex).matchesFrom cs
          = (macGroupRegex.matchesFrom cs).flatMap
              (fun r => (Regex.seq (Regex.repeatN macGroupRegex n) macTailRegex).matchesFrom r) := by
        simp only [Regex.repeatN, Regex.matchesFrom, List.flatMap_assoc]
      rw [hassoc]
      rcases cs with _ | ⟨a, _ | ⟨b, _ | ⟨s, rest⟩⟩⟩
      · simp [macGroupRegex, Regex.matchesFrom, macGroups]
      · cases ha : hexDigit a <;>
          simp [macGroupRegex, Regex.matchesFrom, macGroups, ha]
      · cases ha : hexDigit a <;> cases hb : hexDigit b <;>
          simp [macGroupRegex, Regex.matchesFrom, macGroups, ha, hb]
      · rw [group_matchesFrom]
        by_cases hg : (hexDigit a && hexDigit b && sepChar s) = true
        · rw [if_pos hg]
          simp only [List.flatMap_cons, List.flatMap_nil, List.append_nil]
          rw [ih rest]
          rcases rest with _ | ⟨d, rest'⟩
          · simp [macGroups_succ_cons, macGroups_succ_two, macGroups_nil, hg]
          · simp [macGroups_succ_cons, hg, List.getLast?_cons_cons, List.dropLast]
        · have hg' : (hexDigit a && hexDigit b && sepChar s) = false := by
            simpa using hg
          rw [if_neg hg]
          simp only [List.flatMap_nil, List.any_nil, Bool.false_eq]
          rcases rest with _ | ⟨d, rest'⟩
          · simp [macGroups_succ_cons, macGroups_succ_two, hg']
          · simp [macGroups_succ_cons, hg', List.getLast?_cons_cons, List.dropLast]

end WakeMQTT

namespace WakeMQTT

/-! ## Claims -/

/-- A configuration without a `devices` entry. -/
def cfgEmpty : Config := ⟨none⟩

/-- C1 (counterexample): the structured payload `\x7b"mac_address": "zz"\x7d`
reaches the dispatcher and a broadcast of the invalid MAC `"zz"` is
attempted, although `"zz"` fails the pattern check. -/
theorem c1_counterexample :
    onMessage cfgEmpty (.text "x" (some (.obj [("mac_address", .str "zz")])))
      = (.sent (.obj [("name", .str "device-zz"), ("mac_address", .str "zz"),
                      ("ip_address", .null)]),
         [.broadcast (.str "zz")])
  ∧ isMacAddress "zz" = false :=
  ⟨rfl, rfl⟩

/-- C1 (amended): the MAC pattern check gates only the interpretation of
non-JSON payloads — the trimmed text is treated as a MAC exactly when the
check passes and as a device name otherwise — while a structured payload
with a string `mac_address` field always reaches the dispatcher with that
value verbatim, validated or not. -/
theorem c1_amended_validation_scope (cfg : Config) (pl : String) :
    (onMessage cfg (.text pl none) =
      (if isMacAddress (pyStrip pl)
       then onMessage cfg (.text pl (some (.obj [("mac_address", .str (pyStrip pl))])))
       else onMessage cfg (.text pl (some (.obj [("device", .str (pyStrip pl))])))))
  ∧ (∀ (fields : List (String × Json)) (mac : String),
      fields.lookup "mac_address" = some (.str mac) →
      ∃ dc ev, onMessage cfg (.text pl (some (.obj fields))) = (.sent dc, [ev])
        ∧ ev.mac = .str mac) := by
  constructor
  · cases h : isMacAddress (pyStrip pl) <;>
      simp [onMessage, onMessageRaw, interpret, h]
  · intro fields mac hmac
    refine ⟨directDC fields mac,
      if pyTruthy ((fields.lookup "ip_address").getD .null)
      then SendEvent.unicast (.str mac) ((fields.lookup "ip_address").getD .null)
      else SendEvent.broadcast (.str mac), ?_, ?_⟩
    · simp [onMessage, onMessageRaw, interpret, handleParsed_mac cfg fields mac hmac]
    · cases h : pyTruthy ((fields.lookup "ip_address").getD .null) <;>
        simp [SendEvent.mac, h]

/-- C1 (witness): the amended statement at the bare name
`"living-room-pc"` and at the unvalidated structured MAC `"zz"`. -/
theorem c1_amended_witness :
    (onMessage cfgEmpty (.text "living-room-pc" none) =
      (if isMacAddress (pyStrip "living-room-pc")
       then onMessage cfgEmpty
              (.text "living-room-pc" (some (.obj [("mac_address", .str (pyStrip "living-room-pc"))])))
       else onMessage cfgEmpty
              (.text "living-room-pc" (some (.obj [("device", .str (pyStrip "living-room-pc"))])))))
  ∧ (∃ dc ev, onMessage cfgEmpty (.text "living-room-pc" (some (.obj [("mac_address", .str "zz")])))
        = (.sent dc, [ev]) ∧ ev.mac = .str "zz") := by
  obtain ⟨h1, h2⟩ := c1_amended_validation_scope cfgEmpty "living-room-pc"
  exact ⟨h1, h2 [("mac_address", .str "zz")] "zz" rfl⟩

/-- C2 (counterexample): `_is_mac_address` accepts the mixed-separator
string `AA:BB-CC:DD-EE:FF`, which the claimed uniform-separator reading
rejects; conversely, on `" AA:BB:CC:DD:EE:FF"` the claimed check of the
trimmed string accepts while `_is_mac_address` (which never trims) rejects. -/
theorem c2_counterexample :
    (isMacAddress "AA:BB-CC:DD-EE:FF" = true ∧ claimMacCheck "AA:BB-CC:DD-EE:FF" = false)
  ∧ (isMacAddress " AA:BB:CC:DD:EE:FF" = false ∧ claimMacCheck " AA:BB:CC:DD:EE:FF" = true) :=
  ⟨⟨rfl, rfl⟩, ⟨rfl, rfl⟩⟩

/-- C2 (amended): `_is_mac_address` returns true exactly when the string as
given (no trimming) is six groups of two hexadecimal digits whose five
separators are each, independently, `:` or `-` — mixed separators are
accepted — optionally followed by one trailing newline (which Python's `$`
anchor tolerates). -/
theorem c2_amended_mac_shape (s : String) :
    isMacAddress s
      = (macGroups 5 s.data
         || (s.data.getLast? == some nlChar && macGroups 5 s.data.dropLast)) :=
  mac_match_any 5 s.data

/-- C3: a structured payload with a string `mac_address` field resolves,
under every configuration, to the target whose MAC is the payload value
verbatim, whose `ip_address` is the payload's field (or `None` when
absent), and whose name is the payload's `device` field (or
`"device-" + the last five characters of the MAC` when absent); the
directory is never consulted. -/
theorem c3_structured_mac_target (cfg : Config) (pl : String)
    (fields : List (String × Json)) (mac : String)
    (hmac : fields.lookup "mac_address" = some (.str mac)) :
    onMessage cfg (.text pl (some (.obj fields))) =
      (.sent (directDC fields mac),
       [if pyTruthy ((fields.lookup "ip_address").getD .null)
        then SendEvent.unicast (.str mac) ((fields.lookup "ip_address").getD .null)
        else SendEvent.broadcast (.str mac)]) := by
  simp [onMessage, onMessageRaw, interpret, handleParsed_mac cfg fields mac hmac]

/-- C3 (witness): payload `\x7b"mac_address":"AA:BB:CC:DD:EE:FF"\x7d`
yields exactly that MAC, no IP, the derived name `device-EE:FF`, and one
broadcast. -/
theorem c3_witness :
    onMessage cfgEmpty (.text "x" (some (.obj [("mac_address", .str "AA:BB:CC:DD:EE:FF")])))
      = (.sent (.obj [("name", .str "device-EE:FF"),
                      ("mac_address", .str "AA:BB:CC:DD:EE:FF"), ("ip_address", .null)]),
         [.broadcast (.str "AA:BB:CC:DD:EE:FF")]) := by
  have h := c3_structured_mac_target cfgEmpty "x"
    [("mac_address", .str "AA:BB:CC:DD:EE:FF")] "AA:BB:CC:DD:EE:FF" rfl
  exact h

/-- C4: a payload that fails JSON parsing and whose trimmed text passes the
MAC check resolves exactly as the structured payload
`\x7b"mac_address": trimmed-text\x7d` does, whatever that structured
payload's raw text was. -/
theorem c4_plain_mac_equiv (cfg : Config) (pl pl2 : String)
    (h : isMacAddress (pyStrip pl) = true) :
    onMessage cfg (.text pl none)
      = onMessage cfg (.text pl2 (some (.obj [("mac_address", .str (pyStrip pl))]))) := by
  simp [onMessage, onMessageRaw, interpret, h]

/-- C4 (witness): the plain-text payload `" AA:BB:CC:DD:EE:FF "`. -/
theorem c4_witness :
    isMacAddress (pyStrip " AA:BB:CC:DD:EE:FF ") = true
  ∧ onMessage cfgEmpty (.text " AA:BB:CC:DD:EE:FF " none)
      = onMessage cfgEmpty
          (.text "x" (some (.obj [("mac_address", .str (pyStrip " AA:BB:CC:DD:EE:FF "))]))) :=
  ⟨rfl, c4_plain_mac_equiv cfgEmpty " AA:BB:CC:DD:EE:FF " "x" rfl⟩

end WakeMQTT

namespace WakeMQTT

/-- A directory entry with a mixed-case name, used as a concrete fixture. -/
def entryLR : Json :=
  .obj [("name", .str "Living-Room-PC"), ("mac_address", .str "11:22:33:44:55:66")]

/-- C5: with a directory whose entries all carry a string `name`, resolving
a `device` candidate succeeds exactly when some entry's lowered name equals
the lowered candidate, and the first such entry is handed to `_wake_device`
verbatim (its `mac_address`/`ip_address` values unmodified). -/
theorem c5_directory_lookup (entries : List Json) (dn pl : String)
    (hwf : ∀ e ∈ entries, (entryName e).isSome = true)
    (hne : pyLower dn ≠ "") :
    ((entries.find? (fun e => entryNameLower e == some (pyLower dn))).isSome
       ↔ ∃ e ∈ entries, entryNameLower e = some (pyLower dn))
  ∧ (∀ d, entries.find? (fun e => entryNameLower e == some (pyLower dn)) = some d →
      d ∈ entries
      ∧ onMessageRaw ⟨some (.arr entries)⟩ (.text pl (some (.obj [("device", .str dn)])))
          = wakeDevice d) := by
  constructor
  · simp [List.find?_isSome]
  · intro d hd
    refine ⟨List.mem_of_find?_eq_some hd, ?_⟩
    have hhp := handleParsed_device ⟨some (.arr entries)⟩ [("device", .str dn)] dn rfl rfl
    show handleParsed _ (interpret pl (some (.obj [("device", .str dn)]))) = _
    simp only [interpret]
    rw [hhp, if_neg hne, deviceLookup_entries entries (pyLower dn) hwf, hd]

/-- C5 (witness): payload name `living-room-pc` matches the entry named
`Living-Room-PC` despite the case mismatch. -/
theorem c5_witness :
    ((([entryLR].find? (fun e => entryNameLower e == some (pyLower "living-room-pc"))).isSome
       ↔ ∃ e ∈ [entryLR], entryNameLower e = some (pyLower "living-room-pc"))
  ∧ (∀ d, [entryLR].find? (fun e => entryNameLower e == some (pyLower "living-room-pc")) = some d →
      d ∈ [entryLR]
      ∧ onMessageRaw ⟨some (.arr [entryLR])⟩
            (.text "living-room-pc" (some (.obj [("device", .str "living-room-pc")])))
          = wakeDevice d)) :=
  c5_directory_lookup [entryLR] "living-room-pc" "living-room-pc"
    (by intro e he; rw [List.mem_singleton] at he; subst he; rfl)
    (by decide)

/-- C6 (counterexample): with no directory configured, the bare name
`living-room-pc` ends in the same `notFound` branch as a directory miss
does — there is no distinct DeviceNameUnsupported outcome and no guidance
message; the two situations differ only in the availability diagnostic. -/
theorem c6_counterexample :
    onMessage cfgEmpty (.text "living-room-pc" none)
      = (.notFound "living-room-pc" .noneConfigured, [])
  ∧ onMessage ⟨some (.arr [entryLR])⟩ (.text "other-pc" none)
      = (.notFound "other-pc" (.names ["Living-Room-PC"]), []) :=
  ⟨rfl, rfl⟩

/-- C6 (amended): a bare device name with no configured directory (absent
or empty `devices`) produces the same not-found warning as a directory
miss, followed by the "No devices configured" diagnostic instead of the
name list; the two cases are distinguishable only by that diagnostic. -/
theorem c6_amended_no_directory (cfg : Config) (pl : String)
    (hdev : cfg.devices = none ∨ cfg.devices = some (.arr []))
    (hmac : isMacAddress (pyStrip pl) = false)
    (hne : pyStrip pl ≠ "") :
    onMessage cfg (.text pl none)
      = (.notFound (pyLower (pyStrip pl)) .noneConfigured, []) := by
  have hdv : devicesVal cfg = .arr [] := by
    rcases hdev with h | h <;> simp [devicesVal, h]
  have hne' : pyLower (pyStrip pl) ≠ "" := by
    intro h
    apply hne
    have hd : (pyStrip pl).data.map Char.toLower = [] :=
      congrArg String.data h
    exact Eq.symm (String.ext (Eq.symm (List.map_eq_nil_iff.mp hd)))
  have hhp := handleParsed_device cfg [("device", .str (pyStrip pl))] (pyStrip pl) rfl rfl
  simp only [onMessage, onMessageRaw, interpret, hmac, Bool.false_eq_true, if_false]
  rw [hhp, if_neg hne', deviceLookup_noDevices cfg _ hdv]

/-- C6 (amended, witness): the bare name `living-room-pc` with no
directory. -/
theorem c6_amended_witness :
    onMessage cfgEmpty (.text "living-room-pc" none)
      = (.notFound (pyLower (pyStrip "living-room-pc")) .noneConfigured, []) :=
  c6_amended_no_directory cfgEmpty "living-room-pc" (Or.inl rfl) rfl (by decide)

/-- C7: the callback is total — a stream of messages yields one outcome per
message, each depending only on its own message, and whenever the inner
processing raises, the outer handler converts the exception into a logged
error with no transmission, so no exception escapes the callback. -/
theorem c7_no_escape (cfg : Config) (ms : List MsgInput) :
    processAll cfg ms = ms.map (onMessage cfg)
  ∧ (∀ (m : MsgInput) (e : PyExc), onMessageRaw cfg m = .error e →
      onMessage cfg m = (.caughtError e, [])) := by
  refine ⟨processAll_eq_map cfg ms, ?_⟩
  intro m e h
  simp [onMessage, h]

/-- C7 (witness): the ill-typed JSON payload `42` is caught and the stream
continues. -/
theorem c7_witness :
    processAll cfgEmpty [.text "42" (some (.num 42))]
      = [onMessage cfgEmpty (.text "42" (some (.num 42)))]
  ∧ onMessage cfgEmpty (.text "42" (some (.num 42))) = (.caughtError .typeError, []) := by
  obtain ⟨h1, h2⟩ := c7_no_escape cfgEmpty [.text "42" (some (.num 42))]
  exact ⟨h1, h2 _ .typeError rfl⟩

/-- C8: a structured payload with neither a `mac_address` nor a `device`
key yields the no-target warning, and nothing is transmitted. -/
theorem c8_no_target (cfg : Config) (pl : String) (fields : List (String × Json))
    (h1 : fields.lookup "mac_address" = none)
    (h2 : fields.lookup "device" = none) :
    onMessage cfg (.text pl (some (.obj fields))) = (.noTarget, []) := by
  simp [onMessage, onMessageRaw, interpret, handleParsed_noTarget cfg fields h1 h2]

/-- C8 (witness): the payload `\x7b"ip_address": "192.0.2.5"\x7d`. -/
theorem c8_witness :
    onMessage cfgEmpty (.text "x" (some (.obj [("ip_address", .str "192.0.2.5")])))
      = (.noTarget, []) :=
  c8_no_target cfgEmpty "x" [("ip_address", .str "192.0.2.5")] rfl rfl

end WakeMQTT

namespace WakeMQTT

/-- C9 (counterexample): a payload that sets `ip_address` to the empty
string — a set, non-`None` value — is dispatched as a broadcast, not as a
unicast to that value, because the source tests truthiness rather than
presence. -/
theorem c9_counterexample :
    onMessage cfgEmpty
        (.text "x" (some (.obj [("mac_address", .str "AA:BB:CC:DD:EE:FF"),
                                ("ip_address", .str "")])))
      = (.sent (.obj [("name", .str "device-EE:FF"),
                      ("mac_address", .str "AA:BB:CC:DD:EE:FF"), ("ip_address", .str "")]),
         [.broadcast (.str "AA:BB:CC:DD:EE:FF")])
  ∧ Json.str "" ≠ Json.null :=
  ⟨rfl, fun h => Json.noConfusion h⟩

/-- C9 (amended): dispatching a resolved target attempts exactly one
transmission of its MAC — unicast to exactly the `ip_address` value when
that value is truthy, broadcast when it is `None`, absent, or any falsy
value such as the empty string. -/
theorem c9_dispatch_modes (n m i : Json) :
    wakeDevice (.obj [("name", n), ("mac_address", m), ("ip_address", i)])
      = .ok (.sent (.obj [("name", n), ("mac_address", m), ("ip_address", i)]),
             [if pyTruthy i then SendEvent.unicast m i else SendEvent.broadcast m]) :=
  wakeDevice_dc n m i

/-- C10: a payload parsing to a non-object JSON value (null, bool, number,
string, or array) never takes the plain-text fallback; its processing raises
inside the handler, is caught by the outer handler, and nothing is
transmitted. -/
theorem c10_nonobject_json (cfg : Config) (pl : String) (j : Json)
    (h : ∀ fs, j ≠ .obj fs) :
    (onMessage cfg (.text pl (some j))).2 = []
  ∧ ∃ e, (onMessage cfg (.text pl (some j))).1 = .caughtError e := by
  cases j with
  | obj fs => exact absurd rfl (h fs)
  | null => exact ⟨rfl, ⟨.typeError, rfl⟩⟩
  | bool b => exact ⟨rfl, ⟨.typeError, rfl⟩⟩
  | num n => exact ⟨rfl, ⟨.typeError, rfl⟩⟩
  | str s =>
      have hms : onMessage cfg (.text pl (some (.str s)))
          = (.caughtError (if strIn "mac_address".data s.data
                           then PyExc.typeError else .attributeError), []) := by
        cases hc : strIn "mac_address".data s.data <;>
          simp [onMessage, onMessageRaw, interpret, handleParsed, pyContains, pyGetItem,
            pyDictGet, hc, Bind.bind, Except.bind]
      rw [hms]
      exact ⟨rfl, ⟨_, rfl⟩⟩
  | arr xs =>
      have hms : onMessage cfg (.text pl (some (.arr xs)))
          = (.caughtError (if xs.any (fun x => match x with | .str s => s == "mac_address" | _ => false)
                           then PyExc.typeError else .attributeError), []) := by
        cases hc : xs.any (fun x => match x with | .str s => s == "mac_address" | _ => false) <;>
          simp [onMessage, onMessageRaw, interpret, handleParsed, pyContains, pyGetItem,
            pyDictGet, hc, Bind.bind, Except.bind]
      rw [hms]
      exact ⟨rfl, ⟨_, rfl⟩⟩

/-- C10 (witness): the JSON number payload `42`. -/
theorem c10_witness :
    (onMessage cfgEmpty (.text "42" (some (.num 42)))).2 = []
  ∧ ∃ e, (onMessage cfgEmpty (.text "42" (some (.num 42)))).1 = .caughtError e :=
  c10_nonobject_json cfgEmpty "42" (.num 42) (fun _ h => Json.noConfusion h)

end WakeMQTT
